import Mathlib

/-!
Shallow embedding of parts of the `edge-ai-tuning-kit` backend
(`src/backend/...`) used to check the specification's claims about the
task service, the restart route, the worker crash-recovery scanner, the
deployment packaging worker, the dataset-generation pipeline and the
serving-deployment service.

Python dicts holding JSON-like data are embedded as insertion-ordered
association lists `List (String × JValue)`; Python's `{**old, **new}`
merge is `dictMerge`.  The SQLAlchemy `update(data)` call on a task row
is embedded as a field-wise overwrite of the columns present in the
payload (`applyColumns`).
-/

/-- A JSON-like scalar value stored inside a task's `results` dict. -/
inductive JValue where
  | nat : Nat → JValue
  | str : String → JValue
  deriving Repr, DecidableEq

/-- A Python dict with string keys, kept in insertion order. -/
abbrev JDict := List (String × JValue)

/-- Dict lookup: the first binding of the key, as Python lookup on a
dict whose keys are unique. -/
def dictLookup (d : JDict) (k : String) : Option JValue :=
  (d.find? (fun p => p.1 == k)).map (·.2)

/-- Python's one-level merge `\x7b**old, **upd\x7d`: keys of `old` keep their
position and are overwritten by `upd` where present; keys only in `upd`
are appended in `upd`'s order. -/
def dictMerge (old upd : JDict) : JDict :=
  old.map (fun p => (p.1, (dictLookup upd p.1).getD p.2)) ++
    upd.filter (fun p => (dictLookup old p.1).isNone)

/-- A row of the `tasks` table, restricted to the columns the claims
mention (from `models/tasks.py` / `services/tasks.py`). -/
structure TaskRec where
  id : Nat
  status : String
  download_status : String
  download_progress : Int
  celery_task_id : String
  results : JDict
  deriving Repr, DecidableEq

/-- The `data` dict passed to `TaskService.update_task`: a key is present
in the Python dict exactly when the corresponding field is `some`. -/
structure UpdateData where
  status : Option String := none
  download_status : Option String := none
  download_progress : Option Int := none
  celery_task_id : Option String := none
  results : Option JDict := none
  deriving Repr, DecidableEq

/-- The structured result dict returned by the task service
(`\x7b'status': ..., 'message': ...\x7d`; `data` is omitted as no claim reads
it). -/
structure SvcResult where
  ok : Bool
  message : Option String
  deriving Repr, DecidableEq

/-- The SQLAlchemy `query(...).update(data)`: every column whose key is
present in `data` is replaced wholesale, the others are untouched. -/
def applyColumns (t : TaskRec) (d : UpdateData) : TaskRec :=
  { t with
    status := d.status.getD t.status
    download_status := d.download_status.getD t.download_status
    download_progress := d.download_progress.getD t.download_progress
    celery_task_id := d.celery_task_id.getD t.celery_task_id
    results := d.results.getD t.results }

/-- Row lookup `query(TasksModel).filter(TasksModel.id == id).first()`. -/
def findTask (tasks : List TaskRec) (id : Nat) : Option TaskRec :=
  tasks.find? (fun t => t.id == id)

/-- The results-merging step of `TaskService.update_task`: when the task
already has a truthy (non-empty) `results` dict and the payload carries a
`results` key, the payload's `results` is replaced by
`\x7b**task.results, **data["results"]\x7d`. -/
def mergePayload (task : TaskRec) (data : UpdateData) : UpdateData :=
  match data.results with
  | none => data
  | some r =>
      if task.results.isEmpty then data
      else { data with results := some (dictMerge task.results r) }

/-- `TaskService.update_task` (`services/tasks.py`): returns the service
result together with the table after the update.  A missing id yields a
structured failure and leaves the table unchanged. -/
def update_task (tasks : List TaskRec) (id : Nat) (data : UpdateData) :
    SvcResult × List TaskRec :=
  match findTask tasks id with
  | none =>
      ({ ok := false, message := some "No Task Found with given id" }, tasks)
  | some task =>
      let data2 := mergePayload task data
      ({ ok := true, message := none },
        tasks.map (fun t => if t.id == id then applyColumns t data2 else t))

/-- The `POST /tasks/\x7bid\x7d/restart` route (`routes/tasks.py`,
`restart_task`): 404 when the task is missing, otherwise a fresh celery
job is dispatched and the task is patched with
`\x7b"status": "PENDING", "celery_task_id": str(celery_task_id)\x7d`. -/
def restart_task (tasks : List TaskRec) (id : Nat) (freshCeleryId : String) :
    Except String (SvcResult × List TaskRec) :=
  match findTask tasks id with
  | none => Except.error "Unable to restart task. Task not found."
  | some _ =>
      Except.ok (update_task tasks id
        { status := some "PENDING", celery_task_id := some freshCeleryId })

/-- The OOM message written by the crash-recovery scanner. -/
def oomMessage : String :=
  "Training Error. Error: Training process failure due to OOM(out of memory). Please verify if you have sufficient CPU RAM or GPU RAM before training."

/-- `verify_last_running_tasks` (`worker/app.py`): given the stored
running-task marker's celery id, the broker's list of active job ids and
the stored terminal state of the marked job, return the update written to
the marked task, if any.  The code iterates `activeIds` only to log; the
write is decided solely by `resultStatus`. -/
def verify_last_running_tasks (lastCeleryId : String)
    (activeIds : List String) (resultStatus : String) : Option UpdateData :=
  if lastCeleryId = "" then none
  else
    let _ := activeIds.filter (fun i => i == lastCeleryId)
    if resultStatus ≠ "SUCCESS" ∧ resultStatus ≠ "FAILURE" then
      some { status := some "FAILURE",
             results := some [("status", JValue.str oomMessage)] }
    else none

/-!
Deployment packaging worker
(`workers/llm-finetuning-node/deployment/utils/package.py` and
`workers/llm-finetuning-node/deployment/app.py`).

The filesystem is abstracted to the per-file sizes of the directory
trees the code reads: the deployment-assets tree `./assets/deployment`,
the `.../checkpoints/models` tree read by `_check_file_exists`, the
`.../checkpoints/ov_model` tree that is actually packaged, and the
vector-embedding (`chroma`) tree.  An existing archive is abstracted to
the uncompressed sizes of its non-directory entries.
-/

/-- The filesystem state a packaging invocation sees. -/
structure PackEnv where
  zipExists : Bool
  zipEntrySizes : List Nat
  deployFiles : List Nat
  checkpointModelsFiles : List Nat
  ovModelFiles : List Nat
  embeddingFiles : List Nat
  deriving Repr, DecidableEq

/-- `PrepareDeploymentFile._check_file_exists`: skip packaging when the
archive exists and the sum of its entry sizes equals the sum of the
file sizes under `./assets/deployment` plus those under
`./data/tasks/\x7bid\x7d/models/checkpoints/models`. -/
def check_file_exists (e : PackEnv) : Bool :=
  e.zipExists &&
    (e.zipEntrySizes.sum == (e.deployFiles ++ e.checkpointModelsFiles).sum)

/-- Total size of the three trees that `create_zip_with_progress`
actually packages (`ov_model` weights, deployment assets, embeddings). -/
def sourceTreesTotal (e : PackEnv) : Nat :=
  (e.ovModelFiles ++ e.deployFiles ++ e.embeddingFiles).sum

/-- The per-file sizes written by `create_zip_with_progress`, in the
order the three `_add_*_files_to_zip` helpers run. -/
def packagedFiles (e : PackEnv) : List Nat :=
  e.ovModelFiles ++ e.deployFiles ++ e.embeddingFiles

/-- Progress state of `PrepareDeploymentFile` (`prev_progress`,
`bytes_written`), reset to zero at the start of each zip run. -/
structure ZipProg where
  prev_progress : Nat
  bytes_written : Nat
  deriving Repr, DecidableEq

/-- `PrepareDeploymentFile.update_zipping_progress`: accumulate the
file's size, compute the integer percentage
`int(bytes_written / total_size * 100)` (real division, truncated), and
emit it unless it equals the previously emitted value — except that
while `prev_progress` is still `0` the guard always falls through and
the value is emitted. -/
def update_zipping_progress (totalSize : Nat) (s : ZipProg)
    (fileSize : Nat) : ZipProg × Option Nat :=
  let bw := s.bytes_written + fileSize
  let progress := bw * 100 / totalSize
  if s.prev_progress = 0 then
    (⟨progress, bw⟩, some progress)
  else if s.prev_progress = progress then
    (⟨s.prev_progress, bw⟩, none)
  else
    (⟨progress, bw⟩, some progress)

/-- The sequence of `download_progress` values emitted while writing
`files`, starting from state `s`. -/
def runZipProgress (totalSize : Nat) (s : ZipProg) : List Nat → List Nat
  | [] => []
  | f :: fs =>
      match update_zipping_progress totalSize s f with
      | (s2, some p) => p :: runZipProgress totalSize s2 fs
      | (s2, none) => runZipProgress totalSize s2 fs

/-- Progress emissions of one whole zip run over the given file sizes:
the run starts from the reset state and `total_size` is the sum of all
files to be zipped. -/
def zipProgressEmissions (files : List Nat) : List Nat :=
  runZipProgress files.sum ⟨0, 0⟩ files

/-- One `prepare_model` task invocation (`deployment/app.py`): when
`_check_file_exists` holds nothing is written; otherwise the archive is
rebuilt from the three packaged trees.  Returns the filesystem after the
run together with the number of archive write operations performed. -/
def prepare_model (e : PackEnv) : PackEnv × Nat :=
  if check_file_exists e then (e, 0)
  else
    ({ e with zipExists := true, zipEntrySizes := packagedFiles e },
      (packagedFiles e).length)

/-!
Dataset-generation pipeline (`worker/dataset/generate_qa.py`,
`PDFDataGeneratorPipeline.create_json_dataset`, together with
`worker/dataset/generator.py`, `SyntheticDataGenerator.generate_json_dataset`,
and the celery task `data_generation` in `worker/app.py`).

The abort flag of the abortable celery task is monotone (once aborted a
task stays aborted), so the successive `is_aborted` polls are numbered
and the flag is embedded as `abortAt`: poll number `n` observes the
abort exactly when `abortAt = some k` with `k ≤ n`.  A QA pair is a
dict; `_remove_duplicate_dataset` keys dicts by their sorted item tuple,
which coincides with dict equality, so it is embedded as keep-first
deduplication by equality.  The `update_dataset_metadata_cb` callback
writes the dataset row's generation-metadata column; `metadataDB` is the
last value written there.  Exceptions raised by the per-row persistence
call `update_generated_data_to_dataset` (which sits outside the loop's
`try`) propagate out of `create_json_dataset`.
-/

/-- A generated QA pair (a JSON dict). -/
abbrev QAPair := JDict

/-- The generation-metadata dict maintained by `create_json_dataset`. -/
structure MetaRec where
  total_page : Option Nat
  current_page : Option Nat
  status : Option String
  isCancel : Bool
  processed_files : Nat
  total_files : Nat
  celery_task_id : String
  deriving Repr, DecidableEq

/-- One page / content unit of the document being processed, with the
behaviour of the external model calls on it: whether
`is_chunk_meaningful` raises or returns, at which generation iteration
`_model_generation` raises (if any), the QA pair produced by each
iteration, and at which row index persistence raises (if any). -/
structure PageUnit where
  contentLen : Nat
  meaningfulOutcome : Except Unit Bool
  genRaisesAt : Option Nat
  genResults : Nat → QAPair
  persistRaisesAt : Option Nat

/-- Inputs of one `create_json_dataset` run. -/
structure GenEnv where
  abortAt : Option Nat
  modelLoadRaises : Bool
  units : List PageUnit
  numGenerations : Nat
  processedFiles : Nat
  totalFiles : Nat
  celeryTaskId : String

/-- Whether the `is_aborted` poll number `n` observes the abort flag. -/
def checkAbort (env : GenEnv) (n : Nat) : Bool :=
  match env.abortAt with
  | none => false
  | some k => k ≤ n

/-- State threaded through a run: the number of `is_aborted` polls made
so far, the last value written to the dataset's generation-metadata
column, and the QA rows persisted by this run. -/
structure GenState where
  polls : Nat
  metadataDB : Option MetaRec
  persisted : List QAPair

/-- `PDFDataGeneratorPipeline._remove_duplicate_dataset`: keep the first
occurrence of each QA dict. -/
def remove_duplicate_dataset (seen : List QAPair) :
    List QAPair → List QAPair
  | [] => []
  | d :: ds =>
      if seen.contains d then remove_duplicate_dataset seen ds
      else d :: remove_duplicate_dataset (d :: seen) ds

/-- The generation loop of `SyntheticDataGenerator.generate_json_dataset`
over the remaining iteration indices: each iteration first polls
`is_aborted` (returning `([], false)` when aborted), then runs
`_model_generation` (whose exception propagates to the caller's `try`),
then appends the produced QA pair. -/
def genIter (env : GenEnv) (u : PageUnit) :
    List Nat → Nat → List QAPair → Nat × Except Unit (List QAPair × Bool)
  | [], c, acc => (c, Except.ok (acc, true))
  | g :: gs, c, acc =>
      if checkAbort env c then (c + 1, Except.ok ([], false))
      else if u.genRaisesAt = some g then (c + 1, Except.error ())
      else genIter env u gs (c + 1) (acc ++ [u.genResults g])

/-- `SyntheticDataGenerator.generate_json_dataset` for one unit, started
with poll counter `c`: the result list together with the success flag
(`false` exactly when an abort was observed mid-unit). -/
def generate_json_dataset (env : GenEnv) (u : PageUnit) (c : Nat) :
    Nat × Except Unit (List QAPair × Bool) :=
  genIter env u (List.range env.numGenerations) c []

/-- The per-row persistence loop
`for qa_pair in qa_pair_list: update_generated_data_to_dataset(...)`:
rows before the raising call are persisted; the raise propagates. -/
def persistIter (raiseAt : Option Nat) :
    List QAPair → Nat → List QAPair → List QAPair × Bool
  | [], _, acc => (acc, false)
  | r :: rs, i, acc =>
      if raiseAt = some i then (acc, true)
      else persistIter raiseAt rs (i + 1) (acc ++ [r])

/-- How the `for i, content in enumerate(file_content_list)` loop ends:
normally, by the `break` taken when a unit's generation was aborted, or
by an exception propagating out of the loop body. -/
inductive LoopExit where
  | finished
  | broke
  | raised
  deriving Repr, DecidableEq

/-- The local metadata dict during the loop at unit index `i` (status
`GENERATING DATA`, `current_page = i + 1`). -/
def metaAt (env : GenEnv) (i : Nat) : MetaRec :=
  { total_page := some env.units.length
    current_page := some (i + 1)
    status := some "GENERATING DATA"
    isCancel := false
    processed_files := env.processedFiles
    total_files := env.totalFiles
    celery_task_id := env.celeryTaskId }

/-- The body of `create_json_dataset`'s unit loop.  A short unit is
skipped without any metadata write; otherwise the metadata callback
records the current page, `is_chunk_meaningful` failures and generation
exceptions are caught and skip the unit, an aborted generation breaks
out of the loop discarding the unit's results, and a non-empty result
list is deduplicated and persisted row by row (a persistence exception
propagates). -/
def unitsLoop (env : GenEnv) :
    List (Nat × PageUnit) → GenState → GenState × LoopExit
  | [], st => (st, LoopExit.finished)
  | (i, u) :: rest, st =>
      if u.contentLen ≤ 150 then unitsLoop env rest st
      else
        let st1 : GenState := { st with metadataDB := some (metaAt env i) }
        match u.meaningfulOutcome with
        | Except.error _ => unitsLoop env rest st1
        | Except.ok false => unitsLoop env rest st1
        | Except.ok true =>
            match generate_json_dataset env u st1.polls with
            | (c2, Except.error _) => unitsLoop env rest { st1 with polls := c2 }
            | (c2, Except.ok (rows, success)) =>
                let st2 : GenState := { st1 with polls := c2 }
                if success = false then (st2, LoopExit.broke)
                else if rows.isEmpty then unitsLoop env rest st2
                else
                  let rows2 := remove_duplicate_dataset [] rows
                  match persistIter u.persistRaisesAt rows2 0 st2.persisted with
                  | (pers2, true) => ({ st2 with persisted := pers2 }, LoopExit.raised)
                  | (pers2, false) => unitsLoop env rest { st2 with persisted := pers2 }

/-- What happens after the unit loop ends: when the loop body raised, the
exception propagates with no further write; on normal termination or a
`break` the code falls through to the cleanup `metadata = None` write. -/
def finishRun : GenState × LoopExit → GenState × Bool
  | (st, LoopExit.raised) => (st, true)
  | (st, _) => ({ st with metadataDB := none }, false)

/-- `PDFDataGeneratorPipeline.create_json_dataset` for one file, started
with the dataset's generation-metadata column holding `metaDB0`.
Returns the final state and whether an exception propagated out of the
call.  Poll number 0 is the pre-status check, poll number 1 the
post-model-load check; the remaining polls happen inside the units'
generation loops. -/
def create_json_dataset (env : GenEnv) (metaDB0 : Option MetaRec) :
    GenState × Bool :=
  let st0 : GenState := { polls := 0, metadataDB := metaDB0, persisted := [] }
  let meta0 : MetaRec :=
    { total_page := some env.units.length
      current_page := some 0
      status := none
      isCancel := false
      processed_files := env.processedFiles
      total_files := env.totalFiles
      celery_task_id := env.celeryTaskId }
  if checkAbort env 0 then
    ({ st0 with polls := 1, metadataDB := none }, false)
  else
    let st1 : GenState :=
      { st0 with polls := 1,
                 metadataDB := some { meta0 with status := some "LOADING MODEL" } }
    if env.modelLoadRaises then ({ st1 with metadataDB := none }, false)
    else if checkAbort env 1 then
      ({ st1 with polls := 2, metadataDB := none }, false)
    else
      let st2 : GenState :=
        { st1 with polls := 2,
                   metadataDB := some { meta0 with status := some "GENERATING DATA" } }
      finishRun (unitsLoop env env.units.enum st2)

/-- The celery task `data_generation` (`worker/app.py`): one
`create_json_dataset` run per file; its single `try` wraps the whole
loop, so the first propagated exception ends the task (it is caught and
only logged — in particular no further metadata write happens). -/
def data_generation (envs : List GenEnv) (metaDB : Option MetaRec)
    (persisted : List QAPair) : Option MetaRec × List QAPair :=
  match envs with
  | [] => (metaDB, persisted)
  | e :: es =>
      match create_json_dataset e metaDB with
      | (st, true) => (st.metadataDB, persisted ++ st.persisted)
      | (st, false) => data_generation es st.metadataDB (persisted ++ st.persisted)

/-!
Serving-deployment service (`server/services/deployments.py`,
`DeploymentService.create_deployment` and its `_verify_*` helpers).

The container runtime is abstracted to the list of image names and the
list of (name, running) containers; every call the service makes into
the runtime is recorded in an operation trace, so claims about the
order of runtime calls are claims about that trace.
-/

/-- Whether `needle` is a prefix of the character list. -/
def charsPrefixOf : List Char → List Char → Bool
  | [], _ => true
  | _ :: _, [] => false
  | a :: as, b :: bs => a == b && charsPrefixOf as bs

/-- Whether `needle` occurs contiguously inside the character list. -/
def charsInfixOf (needle : List Char) : List Char → Bool
  | [] => needle.isEmpty
  | b :: bs => charsPrefixOf needle (b :: bs) || charsInfixOf needle bs

/-- Python's `needle in hay` on strings. -/
def strContains (hay needle : String) : Bool :=
  charsInfixOf needle.toList hay.toList

/-- A container as the service sees it. -/
structure ContainerInfo where
  name : String
  running : Bool
  deriving Repr, DecidableEq

/-- The container-runtime state. -/
structure DockerWorld where
  images : List String
  containers : List ContainerInfo
  deriving Repr, DecidableEq

/-- A call into the container runtime, in the order the service makes
them. -/
inductive DockerOp where
  | imageGet
  | containerList
  | containerGet
  | containerRemove
  | containerRun
  deriving Repr, DecidableEq

/-- A deployment-table record: the model id and the recorded
`host_port` setting. -/
structure DeploymentRec where
  model_id : Nat
  host_port : Int
  deriving Repr, DecidableEq

/-- The state a `create_deployment` call sees and mutates. -/
structure DeployEnv where
  world : DockerWorld
  modelPathExists : Bool
  deployments : List DeploymentRec
  imageTag : String
  deriving Repr, DecidableEq

/-- The service response dict (`self.response`). -/
structure DeployResp where
  status : Bool
  message : String
  deriving Repr, DecidableEq

def CONTAINER_PREFIX : String := "edge-ai-tuning-kit.backend.serving-"

def IMAGE_NAME : String := "edge-ai-tuning-kit.backend.serving"

def MIN_PORT : Int := 1024

def MAX_PORT : Int := 65535

/-- `DeploymentService._verify_image_existed`: an `images.get` runtime
call. -/
def verify_image_existed (w : DockerWorld) (imageName : String) : Bool :=
  w.images.contains imageName

/-- `DeploymentService._verify_container_existed`: a
`containers.list(all=True)` runtime call, then Python's
`container_name in container.name` substring test. -/
def verify_container_existed (w : DockerWorld) (containerName : String) : Bool :=
  w.containers.any (fun c => strContains c.name containerName)

/-- `DeploymentService._verify_container_running`: a `containers.get`
runtime call; a missing container reads as not running. -/
def verify_container_running (w : DockerWorld) (containerName : String) : Bool :=
  match w.containers.find? (fun c => c.name == containerName) with
  | none => false
  | some c => c.running

/-- `DeploymentService._verify_host_port` on the deployments table:
`none` when the port is acceptable, otherwise the error message it
stores in the response.  No container-runtime call is made here. -/
def verify_host_port (deployments : List DeploymentRec) (hostPort : Int) :
    Option String :=
  if hostPort < MIN_PORT ∨ hostPort > MAX_PORT then
    some ("Port " ++ toString hostPort ++ " is not in range " ++
      toString MIN_PORT ++ " to " ++ toString MAX_PORT ++
      ". Please use another port number.")
  else if deployments.any (fun d => d.host_port == hostPort) then
    some ("Port " ++ toString hostPort ++
      " is already in use. Please use another port number.")
  else none

/-- `DeploymentService.delete_deployment` in the successful case used by
the recreate branch: a `containers.get` plus a forced remove, and the
deployment records of the model id are dropped. -/
def delete_deployment (env : DeployEnv) (modelId : Nat) :
    DeployEnv × List DockerOp :=
  let name := CONTAINER_PREFIX ++ toString modelId
  ({ env with
      world := { env.world with
        containers := env.world.containers.filter (fun c => c.name != name) }
      deployments := env.deployments.filter (fun d => d.model_id != modelId) },
    [DockerOp.containerGet, DockerOp.containerRemove])

/-- The tail of `create_deployment` after the existing-container
handling: host-port verification, device check, `containers.run`, and
the deployment-record insert. -/
def createAfterContainerCheck (env : DeployEnv) (trace : List DockerOp)
    (mid : Nat) (port : Int) (dev : String) (containerName : String) :
    DeployResp × List DockerOp × DeployEnv :=
  match verify_host_port env.deployments port with
  | some msg => ({ status := false, message := msg }, trace, env)
  | none =>
      if dev ≠ "xpu" ∧ dev ≠ "cpu" then
        ({ status := false, message := "Device " ++ dev ++ " is not supported." },
          trace, env)
      else
        ({ status := true,
           message := "Inferencing service for model id: " ++ toString mid ++
             " started successfully." },
          trace ++ [DockerOp.containerRun],
          { env with
            world := { env.world with
              containers := env.world.containers ++ [⟨containerName, true⟩] }
            deployments := env.deployments ++ [⟨mid, port⟩] })

/-- `DeploymentService.create_deployment`: the response, the trace of
container-runtime calls in order, and the resulting state.  The checks
run in the source's order: required parameters, model-weight path,
image lookup, container listing (with the already-running early return
or the recreate deletion), host-port verification, device check, and
only then `containers.run` plus the database insert. -/
def create_deployment (env : DeployEnv) (modelId : Option Nat)
    (hostPort : Option Int) (device : Option String) :
    DeployResp × List DockerOp × DeployEnv :=
  match modelId, hostPort, device with
  | some mid, some port, some dev =>
      let containerName := CONTAINER_PREFIX ++ toString mid
      if ¬ env.modelPathExists then
        ({ status := false,
           message := "Model weight file not found for model id: " ++ toString mid },
          [], env)
      else if ¬ verify_image_existed env.world (IMAGE_NAME ++ ":" ++ env.imageTag) then
        ({ status := false,
           message := "Serving service is not available. Please follow the installation guide to install the service first." },
          [DockerOp.imageGet], env)
      else
        let preTrace := [DockerOp.imageGet, DockerOp.containerList]
        if verify_container_existed env.world containerName then
          if verify_container_running env.world containerName then
            ({ status := false,
               message := "Services for model id: " ++ toString mid ++ " already running." },
              preTrace ++ [DockerOp.containerGet], env)
          else
            let (env2, delOps) := delete_deployment env mid
            createAfterContainerCheck env2 (preTrace ++ [DockerOp.containerGet] ++ delOps)
              mid port dev containerName
        else
          createAfterContainerCheck env preTrace mid port dev containerName
  | _, _, _ =>
      ({ status := false, message := "Missing required deployment parameters" }, [], env)

/-!
Helper lemmas about dict lookup and merge, and about the task table.
-/

/-- Left-biased choice on optional values (`x` if present, else `y`). -/
def optOr (x y : Option JValue) : Option JValue :=
  match x with
  | some v => some v
  | none => y

theorem dictLookup_cons (p : String × JValue) (d : JDict) (k : String) :
    dictLookup (p :: d) k = if p.1 == k then some p.2 else dictLookup d k := by
  cases h : p.1 == k <;> simp [dictLookup, List.find?, h]

theorem dictLookup_append (a b : JDict) (k : String) :
    dictLookup (a ++ b) k = optOr (dictLookup a k) (dictLookup b k) := by
  induction a with
  | nil => simp [dictLookup, optOr]
  | cons p a ih =>
      rw [List.cons_append, dictLookup_cons, dictLookup_cons]
      cases h : p.1 == k <;> simp [h, optOr, ih]

theorem mapMerge_lookup (b : JDict) (a : JDict) (k : String) :
    dictLookup (a.map (fun p => (p.1, (dictLookup b p.1).getD p.2))) k =
      (dictLookup a k).map (fun v => (dictLookup b k).getD v) := by
  induction a with
  | nil => rfl
  | cons p a ih =>
      rw [List.map_cons, dictLookup_cons, dictLookup_cons]
      cases h : p.1 == k
      · simp [h, ih]
      · have hk : p.1 = k := by simpa using h
        subst hk
        simp

theorem filterMerge_lookup (a : JDict) (b : JDict) (k : String) :
    dictLookup (b.filter (fun p => (dictLookup a p.1).isNone)) k =
      if (dictLookup a k).isNone then dictLookup b k else none := by
  induction b with
  | nil => cases h : (dictLookup a k).isNone <;> simp [dictLookup, h]
  | cons q b ih =>
      rw [List.filter_cons]
      cases hq : (dictLookup a q.1).isNone
      · simp only [hq, Bool.false_eq_true, if_false]
        rw [ih, dictLookup_cons]
        cases h : q.1 == k
        · simp [h]
        · have hk : q.1 = k := by simpa using h
          subst hk
          simp [hq]
      · simp only [hq, if_true]
        rw [dictLookup_cons, ih, dictLookup_cons]
        cases h : q.1 == k
        · simp [h]
        · have hk : q.1 = k := by simpa using h
          subst hk
          simp [h, hq]

/-- Lookup semantics of Python's `\x7b**old, **upd\x7d`: keys present in the
update overwrite, keys absent from the update keep the old value. -/
theorem dictLookup_dictMerge (a b : JDict) (k : String) :
    dictLookup (dictMerge a b) k = optOr (dictLookup b k) (dictLookup a k) := by
  rw [dictMerge, dictLookup_append, mapMerge_lookup, filterMerge_lookup]
  cases ha : dictLookup a k <;> cases hb : dictLookup b k <;> simp [optOr]

/-- The `id` column is never part of an update payload. -/
theorem applyColumns_id (t : TaskRec) (d : UpdateData) :
    (applyColumns t d).id = t.id := rfl

/-- Row lookup after the SQL update: the updated row is found in place. -/
theorem findTask_map_update (tasks : List TaskRec) (id : Nat) (d : UpdateData) :
    findTask (tasks.map (fun t => if t.id == id then applyColumns t d else t)) id =
      (findTask tasks id).map (fun t => applyColumns t d) := by
  induction tasks with
  | nil => rfl
  | cons t ts ih =>
      by_cases h : (t.id == id) = true
      · simp [findTask, List.find?, h, applyColumns_id]
      · have h2 : (t.id == id) = false := by simpa using h
        simp [findTask, List.find?, h2]
        simpa [findTask] using ih

/-- Claim C1: when the targeted task has a non-empty `results` dict and the
payload carries a `results` key, `update_task` stores the one-level-deep
merge of the old results with the payload's results — keys absent from the
payload's results are preserved, keys present overwrite — while the scalar
columns present in the payload (status, download status and progress,
celery job handle) are replaced wholesale. -/
theorem C1_update_task_merges_results (tasks : List TaskRec) (id : Nat)
    (data : UpdateData) (t : TaskRec) (r : JDict)
    (hfind : findTask tasks id = some t)
    (hres : t.results ≠ [])
    (hdata : data.results = some r) :
    (update_task tasks id data).1.ok = true ∧
    ∃ t2, findTask (update_task tasks id data).2 id = some t2 ∧
      t2.results = dictMerge t.results r ∧
      (∀ k, dictLookup t2.results k =
        optOr (dictLookup r k) (dictLookup t.results k)) ∧
      t2.status = data.status.getD t.status ∧
      t2.download_status = data.download_status.getD t.download_status ∧
      t2.download_progress = data.download_progress.getD t.download_progress ∧
      t2.celery_task_id = data.celery_task_id.getD t.celery_task_id ∧
      t2.id = t.id := by
  have hne : t.results.isEmpty = false := by
    rcases h : t.results with _ | ⟨a, l⟩
    · exact absurd h hres
    · rfl
  have hmp : mergePayload t data =
      { data with results := some (dictMerge t.results r) } := by
    simp [mergePayload, hdata, hne]
  have htab : (update_task tasks id data).2 =
      tasks.map (fun x =>
        if x.id == id then applyColumns x (mergePayload t data) else x) := by
    simp [update_task, hfind]
  refine ⟨by simp [update_task, hfind],
    applyColumns t (mergePayload t data), ?_, ?_, ?_, ?_, ?_, ?_, ?_, rfl⟩
  · rw [htab, findTask_map_update, hfind]
    rfl
  · rw [hmp]
    rfl
  · intro k
    rw [hmp]
    exact dictLookup_dictMerge t.results r k
  · rw [hmp]
    rfl
  · rw [hmp]
    rfl
  · rw [hmp]
    rfl
  · rw [hmp]
    rfl

/-- Demo task for the concrete scenarios. -/
def c1Task : TaskRec :=
  { id := 42, status := "SUCCESS", download_status := "NOT_STARTED",
    download_progress := 0, celery_task_id := "old-cid",
    results := [("a", JValue.nat 1)] }

/-- Witness for claim C1: patching task 42 (results `\x7b"a": 1\x7d`) with
`\x7b"results": \x7b"b": 2\x7d\x7d` merges rather than replaces. -/
theorem C1_update_task_merges_results_witness :
    (findTask [c1Task] 42 = some c1Task ∧ c1Task.results ≠ [] ∧
      (({ results := some [("b", JValue.nat 2)] } : UpdateData)).results =
        some [("b", JValue.nat 2)]) ∧
    ((update_task [c1Task] 42 { results := some [("b", JValue.nat 2)] }).1.ok = true ∧
      ∃ t2, findTask
          (update_task [c1Task] 42 { results := some [("b", JValue.nat 2)] }).2 42 =
          some t2 ∧
        t2.results = dictMerge c1Task.results [("b", JValue.nat 2)] ∧
        (∀ k, dictLookup t2.results k =
          optOr (dictLookup [("b", JValue.nat 2)] k) (dictLookup c1Task.results k)) ∧
        t2.status = (({ results := some [("b", JValue.nat 2)] } : UpdateData)).status.getD c1Task.status ∧
        t2.download_status = (({ results := some [("b", JValue.nat 2)] } : UpdateData)).download_status.getD c1Task.download_status ∧
        t2.download_progress = (({ results := some [("b", JValue.nat 2)] } : UpdateData)).download_progress.getD c1Task.download_progress ∧
        t2.celery_task_id = (({ results := some [("b", JValue.nat 2)] } : UpdateData)).celery_task_id.getD c1Task.celery_task_id ∧
        t2.id = c1Task.id) :=
  ⟨⟨rfl, by decide, rfl⟩,
    C1_update_task_merges_results [c1Task] 42
      { results := some [("b", JValue.nat 2)] } c1Task [("b", JValue.nat 2)]
      rfl (by decide) rfl⟩

/-- Claim C10: updating a task id with no record returns the structured
failure `\x7b'status': False, 'message': "No Task Found with given id"\x7d` (no
exception is modelled: the embedding is a total function into this result
type) and leaves the task table unchanged. -/
theorem C10_update_task_missing_id (tasks : List TaskRec) (id : Nat)
    (data : UpdateData) (h : findTask tasks id = none) :
    update_task tasks id data =
      ({ ok := false, message := some "No Task Found with given id" }, tasks) := by
  simp [update_task, h]

/-- Witness for claim C10 on an empty table. -/
theorem C10_update_task_missing_id_witness :
    findTask [] 7 = none ∧
    update_task [] 7 { status := some "FAILURE" } =
      ({ ok := false, message := some "No Task Found with given id" }, []) :=
  ⟨rfl, C10_update_task_missing_id [] 7 { status := some "FAILURE" } rfl⟩

/-- Counterexample to claim C2: restarting task 42 from terminal state
SUCCESS patches only `status` and `celery_task_id`; the stored `results`
stays `\x7b"a": 1\x7d`, which is not empty. -/
theorem C2_cex_restart_keeps_results :
    restart_task [c1Task] 42 "new-cid" =
      Except.ok ({ ok := true, message := none },
        [{ id := 42, status := "PENDING", download_status := "NOT_STARTED",
           download_progress := 0, celery_task_id := "new-cid",
           results := [("a", JValue.nat 1)] }]) ∧
    ([("a", JValue.nat 1)] : JDict) ≠ [] := by
  constructor
  · rfl
  · decide

/-- Claim C2 as amended: restarting an existing task (whatever its prior
state) sets `status` to PENDING, replaces the celery job handle with the
freshly dispatched one and preserves the id — but it leaves `results`
unchanged rather than clearing it. -/
theorem C2_restart_preserves_results (tasks : List TaskRec) (id : Nat)
    (t : TaskRec) (fresh : String)
    (hfind : findTask tasks id = some t) :
    ∃ res tasks2, restart_task tasks id fresh = Except.ok (res, tasks2) ∧
      res.ok = true ∧
      ∃ t2, findTask tasks2 id = some t2 ∧
        t2.id = t.id ∧ t2.status = "PENDING" ∧ t2.celery_task_id = fresh ∧
        t2.results = t.results ∧
        t2.download_status = t.download_status ∧
        t2.download_progress = t.download_progress := by
  refine ⟨{ ok := true, message := none },
    tasks.map (fun x => if x.id == id then
      applyColumns x { status := some "PENDING", celery_task_id := some fresh } else x),
    ?_, rfl, ?_⟩
  · simp [restart_task, hfind, update_task, mergePayload]
  · rw [findTask_map_update, hfind]
    exact ⟨applyColumns t { status := some "PENDING", celery_task_id := some fresh },
      rfl, rfl, rfl, rfl, rfl, rfl, rfl⟩

/-- Witness for the amended claim C2. -/
theorem C2_restart_preserves_results_witness :
    findTask [c1Task] 42 = some c1Task ∧
    (∃ res tasks2, restart_task [c1Task] 42 "new-cid" = Except.ok (res, tasks2) ∧
      res.ok = true ∧
      ∃ t2, findTask tasks2 42 = some t2 ∧
        t2.id = c1Task.id ∧ t2.status = "PENDING" ∧ t2.celery_task_id = "new-cid" ∧
        t2.results = c1Task.results ∧
        t2.download_status = c1Task.download_status ∧
        t2.download_progress = c1Task.download_progress) :=
  ⟨rfl, C2_restart_preserves_results [c1Task] 42 c1Task "new-cid" rfl⟩

/-- Claim C3 is right and the code wrong: with the marker pointing at job
handle "abc", the broker listing "abc" as active, and the job's stored
state STARTED (non-terminal), the scanner still writes FAILURE with the
OOM message to the task — the active-list membership only produces a log
line and does not suppress the write. -/
theorem C3_bug_scanner_fails_active_task :
    verify_last_running_tasks "abc" ["abc"] "STARTED" =
      some { status := some "FAILURE",
             results := some [("status", JValue.str oomMessage)] } ∧
    "abc" ∈ ["abc"] := by
  constructor
  · rfl
  · simp

/-- A deployment-packaging filesystem with distinct tree contents: the
packaged `ov_model` tree holds one 10-byte file, the deployment assets a
7-byte file, the embeddings a 5-byte file, while the `checkpoints/models`
tree consulted by the existence check holds a 3-byte file. -/
def c4Env : PackEnv :=
  { zipExists := false, zipEntrySizes := [], deployFiles := [7],
    checkpointModelsFiles := [3], ovModelFiles := [10], embeddingFiles := [5] }

/-- Counterexample to claim C4: after a successful first packaging run the
archive exists and its total entry size equals the sum over the three
source trees, yet the second invocation performs 3 archive writes, because
`_check_file_exists` compares the archive against the deployment-assets
tree plus the `checkpoints/models` tree (10 ≠ 7 + 3 + 5 here), not against
what was packaged. -/
theorem C4_cex_second_run_repackages :
    (prepare_model c4Env).1.zipExists = true ∧
    sourceTreesTotal (prepare_model c4Env).1 =
      ((prepare_model c4Env).1.zipEntrySizes).sum ∧
    (prepare_model (prepare_model c4Env).1).2 = 3 ∧
    (3 : Nat) ≠ 0 := by decide

/-- Claim C4 as amended: a packaging invocation performs zero archive
writes and leaves the filesystem unchanged precisely when either the
existing archive's total entry size equals the sum over the
deployment-assets tree plus the `checkpoints/models` tree (the check never
consults the packaged `ov_model` tree or the embedding tree), or there is
nothing to package at all. -/
theorem C4_skip_condition (e : PackEnv) :
    (check_file_exists e = true → prepare_model e = (e, 0)) ∧
    ((prepare_model e).2 = 0 ↔
      (check_file_exists e = true ∨ packagedFiles e = [])) := by
  constructor
  · intro h
    simp [prepare_model, h]
  · by_cases h : check_file_exists e = true
    · simp [prepare_model, h]
    · simp [prepare_model, h, List.length_eq_zero]

/-- A filesystem on which the existence check does hold. -/
def c4SkipEnv : PackEnv :=
  { zipExists := true, zipEntrySizes := [10], deployFiles := [10],
    checkpointModelsFiles := [], ovModelFiles := [10], embeddingFiles := [] }

/-- Witness for the amended claim C4. -/
theorem C4_skip_condition_witness :
    check_file_exists c4SkipEnv = true ∧ prepare_model c4SkipEnv = (c4SkipEnv, 0) :=
  ⟨by decide, (C4_skip_condition c4SkipEnv).1 (by decide)⟩

/-- The progress tracker's invariant is preserved and its emissions are
bounded below by the percentage already reached: starting from a state
whose `prev_progress` equals the percentage of `bytes_written`, all
emitted values are at least that percentage, and the emission list is
monotonically non-decreasing. -/
theorem runZip_bound (total : Nat) :
    ∀ (fs : List Nat) (s : ZipProg),
      s.prev_progress = s.bytes_written * 100 / total →
      List.Chain' (· ≤ ·) (runZipProgress total s fs) ∧
      ∀ e ∈ runZipProgress total s fs, s.bytes_written * 100 / total ≤ e := by
  intro fs
  induction fs with
  | nil =>
      intro s _
      exact ⟨List.chain'_nil, by intro e he; simp [runZipProgress] at he⟩
  | cons f fs ih =>
      intro s hinv
      have hmono : s.bytes_written * 100 / total ≤ (s.bytes_written + f) * 100 / total :=
        Nat.div_le_div_right (Nat.mul_le_mul_right 100 (Nat.le_add_right _ _))
      by_cases h0 : s.prev_progress = 0
      · have hstep : runZipProgress total s (f :: fs) =
            ((s.bytes_written + f) * 100 / total) ::
              runZipProgress total
                ⟨(s.bytes_written + f) * 100 / total, s.bytes_written + f⟩ fs := by
          simp [runZipProgress, update_zipping_progress, h0]
        obtain ⟨hc, hb⟩ :=
          ih ⟨(s.bytes_written + f) * 100 / total, s.bytes_written + f⟩ rfl
        rw [hstep]
        constructor
        · rw [List.chain'_cons']
          exact ⟨fun b hb2 => hb b (List.mem_of_mem_head? hb2), hc⟩
        · intro e he
          rcases List.mem_cons.mp he with he | he
          · exact he ▸ hmono
          · exact le_trans hmono (hb e he)
      · by_cases hp : s.prev_progress = (s.bytes_written + f) * 100 / total
        · have h0p : ¬ (s.bytes_written + f) * 100 / total = 0 :=
            fun hz => h0 (hp.trans hz)
          have hstep : runZipProgress total s (f :: fs) =
              runZipProgress total
                ⟨(s.bytes_written + f) * 100 / total, s.bytes_written + f⟩ fs := by
            simp [runZipProgress, update_zipping_progress, h0, hp, h0p]
          obtain ⟨hc, hb⟩ :=
            ih ⟨(s.bytes_written + f) * 100 / total, s.bytes_written + f⟩ rfl
          rw [hstep]
          exact ⟨hc, fun e he => le_trans hmono (hb e he)⟩
        · have hstep : runZipProgress total s (f :: fs) =
              ((s.bytes_written + f) * 100 / total) ::
                runZipProgress total
                  ⟨(s.bytes_written + f) * 100 / total, s.bytes_written + f⟩ fs := by
            simp [runZipProgress, update_zipping_progress, h0, hp]
          obtain ⟨hc, hb⟩ :=
            ih ⟨(s.bytes_written + f) * 100 / total, s.bytes_written + f⟩ rfl
          rw [hstep]
          constructor
          · rw [List.chain'_cons']
            exact ⟨fun b hb2 => hb b (List.mem_of_mem_head? hb2), hc⟩
          · intro e he
            rcases List.mem_cons.mp he with he | he
            · exact he ▸ hmono
            · exact le_trans hmono (hb e he)

/-- Once a positive percentage has been reached as `prev_progress`, every
later emission is strictly larger. -/
theorem runZip_gt (total : Nat) :
    ∀ (fs : List Nat) (s : ZipProg),
      s.prev_progress = s.bytes_written * 100 / total →
      0 < s.prev_progress →
      ∀ e ∈ runZipProgress total s fs, s.prev_progress < e := by
  intro fs
  induction fs with
  | nil =>
      intro s _ _ e he
      simp [runZipProgress] at he
  | cons f fs ih =>
      intro s hinv hpos e he
      have h0 : ¬ s.prev_progress = 0 := Nat.pos_iff_ne_zero.mp hpos
      have hmono : s.bytes_written * 100 / total ≤ (s.bytes_written + f) * 100 / total :=
        Nat.div_le_div_right (Nat.mul_le_mul_right 100 (Nat.le_add_right _ _))
      by_cases hp : s.prev_progress = (s.bytes_written + f) * 100 / total
      · have h0p : ¬ (s.bytes_written + f) * 100 / total = 0 :=
          fun hz => h0 (hp.trans hz)
        have hstep : runZipProgress total s (f :: fs) =
            runZipProgress total
              ⟨(s.bytes_written + f) * 100 / total, s.bytes_written + f⟩ fs := by
          simp [runZipProgress, update_zipping_progress, h0, hp, h0p]
        rw [hstep] at he
        exact hp.symm ▸
          (ih ⟨(s.bytes_written + f) * 100 / total, s.bytes_written + f⟩ rfl
            (hp ▸ hpos) e he)
      · have hstep : runZipProgress total s (f :: fs) =
            ((s.bytes_written + f) * 100 / total) ::
              runZipProgress total
                ⟨(s.bytes_written + f) * 100 / total, s.bytes_written + f⟩ fs := by
          simp [runZipProgress, update_zipping_progress, h0, hp]
        have hlt : s.prev_progress < (s.bytes_written + f) * 100 / total :=
          lt_of_le_of_ne (hinv ▸ hmono) hp
        rw [hstep] at he
        rcases List.mem_cons.mp he with he | he
        · exact he ▸ hlt
        · exact lt_trans hlt
            (ih ⟨(s.bytes_written + f) * 100 / total, s.bytes_written + f⟩ rfl
              (Nat.lt_of_le_of_lt (Nat.zero_le _) hlt) e he)

/-- Every positive percentage value is emitted at most once per run. -/
theorem runZip_count (total : Nat) :
    ∀ (fs : List Nat) (s : ZipProg),
      s.prev_progress = s.bytes_written * 100 / total →
      ∀ v, 0 < v → (runZipProgress total s fs).count v ≤ 1 := by
  intro fs
  induction fs with
  | nil =>
      intro s _ v _
      simp [runZipProgress]
  | cons f fs ih =>
      intro s hinv v hv
      by_cases h0 : s.prev_progress = 0
      · have hstep : runZipProgress total s (f :: fs) =
            ((s.bytes_written + f) * 100 / total) ::
              runZipProgress total
                ⟨(s.bytes_written + f) * 100 / total, s.bytes_written + f⟩ fs := by
          simp [runZipProgress, update_zipping_progress, h0]
        rw [hstep]
        by_cases hpv : (s.bytes_written + f) * 100 / total = v
        · subst hpv
          have hzero : (runZipProgress total
              ⟨(s.bytes_written + f) * 100 / total, s.bytes_written + f⟩ fs).count
                ((s.bytes_written + f) * 100 / total) = 0 := by
            rw [List.count_eq_zero]
            intro hmem
            exact lt_irrefl _
              (runZip_gt total fs
                ⟨(s.bytes_written + f) * 100 / total, s.bytes_written + f⟩ rfl hv _ hmem)
          simp [List.count_cons, hzero]
        · have hih :=
            ih ⟨(s.bytes_written + f) * 100 / total, s.bytes_written + f⟩ rfl v hv
          simpa [List.count_cons, Ne.symm hpv] using hih
      · by_cases hp : s.prev_progress = (s.bytes_written + f) * 100 / total
        · have h0p : ¬ (s.bytes_written + f) * 100 / total = 0 :=
            fun hz => h0 (hp.trans hz)
          have hstep : runZipProgress total s (f :: fs) =
              runZipProgress total
                ⟨(s.bytes_written + f) * 100 / total, s.bytes_written + f⟩ fs := by
            simp [runZipProgress, update_zipping_progress, h0, hp, h0p]
          rw [hstep]
          exact ih ⟨(s.bytes_written + f) * 100 / total, s.bytes_written + f⟩ rfl v hv
        · have hstep : runZipProgress total s (f :: fs) =
              ((s.bytes_written + f) * 100 / total) ::
                runZipProgress total
                  ⟨(s.bytes_written + f) * 100 / total, s.bytes_written + f⟩ fs := by
            simp [runZipProgress, update_zipping_progress, h0, hp]
          rw [hstep]
          by_cases hpv : (s.bytes_written + f) * 100 / total = v
          · subst hpv
            have hzero : (runZipProgress total
                ⟨(s.bytes_written + f) * 100 / total, s.bytes_written + f⟩ fs).count
                  ((s.bytes_written + f) * 100 / total) = 0 := by
              rw [List.count_eq_zero]
              intro hmem
              exact lt_irrefl _
                (runZip_gt total fs
                  ⟨(s.bytes_written + f) * 100 / total, s.bytes_written + f⟩ rfl hv _ hmem)
            simp [List.count_cons, hzero]
          · have hih :=
              ih ⟨(s.bytes_written + f) * 100 / total, s.bytes_written + f⟩ rfl v hv
            simpa [List.count_cons, Ne.symm hpv] using hih

/-- Counterexample to claim C5: with files of sizes 1, 1, 998 bytes (total
1000) the run emits the percentage 0 twice — whenever `prev_progress` is
still 0 the de-duplication guard falls through, so the same value 0 is
reported once per file until the percentage becomes positive. -/
theorem C5_cex_zero_emitted_twice :
    zipProgressEmissions [1, 1, 998] = [0, 0, 100] ∧
    ¬ ((zipProgressEmissions [1, 1, 998]).count 0 ≤ 1) := by decide

/-- Claim C5 as amended: within a single packaging run the emitted
percentage sequence is monotonically non-decreasing and every positive
percentage value is emitted at most once; the value 0, however, may be
re-emitted for each file processed while the cumulative percentage is
still 0, because the guard treats `prev_progress = 0` as "first
emission". -/
theorem C5_progress_monotone_and_positive_dedup (files : List Nat) :
    List.Chain' (· ≤ ·) (zipProgressEmissions files) ∧
    ∀ v, 0 < v → (zipProgressEmissions files).count v ≤ 1 :=
  ⟨(runZip_bound files.sum files ⟨0, 0⟩ (by simp)).1,
    fun v hv => runZip_count files.sum files ⟨0, 0⟩ (by simp) v hv⟩

/-- Witness for the amended claim C5 at a concrete run. -/
theorem C5_progress_monotone_and_positive_dedup_witness :
    List.Chain' (· ≤ ·) (zipProgressEmissions [1, 1, 998]) ∧
    (0 < 100 ∧ (zipProgressEmissions [1, 1, 998]).count 100 ≤ 1) :=
  ⟨(C5_progress_monotone_and_positive_dedup [1, 1, 998]).1,
    by decide,
    (C5_progress_monotone_and_positive_dedup [1, 1, 998]).2 100 (by decide)⟩

/-- A run that does not raise always ends in the cleanup write. -/
theorem finishRun_metadataDB (r : GenState × LoopExit)
    (h : (finishRun r).2 = false) : (finishRun r).1.metadataDB = none := by
  rcases r with ⟨st, ex⟩
  cases ex <;> simp [finishRun] at h ⊢

/-- A unit whose generation loop completes normally that then raises while
persisting: content long enough, meaningful, one generation producing one
QA dict, and the very first persistence call raising. -/
def c6Unit : PageUnit :=
  { contentLen := 200, meaningfulOutcome := Except.ok true, genRaisesAt := none,
    genResults := fun _ => [("question", JValue.str "q")], persistRaisesAt := some 0 }

/-- A generation job over that single unit, never aborted, model loading
fine. -/
def c6Env : GenEnv :=
  { abortAt := none, modelLoadRaises := false, units := [c6Unit],
    numGenerations := 1, processedFiles := 1, totalFiles := 1,
    celeryTaskId := "job-1" }

/-- Counterexample to claim C6: when persisting the first unit's results
raises (the persistence call sits outside the loop's `try`), the exception
propagates out of `create_json_dataset` and out through `data_generation`'s
catch-and-log, and the generation-metadata column is left at its last
non-null value instead of being set to null. -/
theorem C6_cex_persist_raise_leaves_metadata :
    (create_json_dataset c6Env none).2 = true ∧
    (create_json_dataset c6Env none).1.metadataDB = some (metaAt c6Env 0) ∧
    ((create_json_dataset c6Env none).1.metadataDB).isSome = true ∧
    (data_generation [c6Env] none []).1 = some (metaAt c6Env 0) :=
  ⟨rfl, rfl, rfl, rfl⟩

/-- Claim C6 as amended: the metadata column ends up null on every run
that terminates without propagating an exception — normal completion,
abort at any poll point, model-load failure, caught per-unit generation
failures, and the abort-induced `break` all reach a `metadata = None`
write; but the cleanup is not an always-run `finally`, so an exception
raised while persisting a unit's rows escapes with the metadata still
non-null. -/
theorem C6_metadata_null_unless_persist_raises (env : GenEnv)
    (m0 : Option MetaRec) (h : (create_json_dataset env m0).2 = false) :
    (create_json_dataset env m0).1.metadataDB = none := by
  unfold create_json_dataset at h ⊢
  by_cases h1 : checkAbort env 0 = true
  · simp [h1]
  · by_cases h2 : env.modelLoadRaises = true
    · simp [h1, h2]
    · by_cases h3 : checkAbort env 1 = true
      · simp [h1, h2, h3]
      · simp only [h1, h2, h3, Bool.false_eq_true, if_false] at h ⊢
        exact finishRun_metadataDB _ h

/-- The same unit with persistence succeeding. -/
def c6OkUnit : PageUnit :=
  { contentLen := 200, meaningfulOutcome := Except.ok true, genRaisesAt := none,
    genResults := fun _ => [("question", JValue.str "q")], persistRaisesAt := none }

/-- The c6 job with persistence succeeding. -/
def c6OkEnv : GenEnv :=
  { abortAt := none, modelLoadRaises := false, units := [c6OkUnit],
    numGenerations := 1, processedFiles := 1, totalFiles := 1,
    celeryTaskId := "job-1" }

/-- Witness for the amended claim C6. -/
theorem C6_metadata_null_unless_persist_raises_witness :
    (create_json_dataset c6OkEnv none).2 = false ∧
    (create_json_dataset c6OkEnv none).1.metadataDB = none :=
  ⟨rfl, C6_metadata_null_unless_persist_raises c6OkEnv none rfl⟩

/-- Rows already persisted are never removed by the persistence loop. -/
theorem persistIter_extends (raiseAt : Option Nat) :
    ∀ (rows : List QAPair) (i : Nat) (acc : List QAPair),
      ∃ tail, (persistIter raiseAt rows i acc).1 = acc ++ tail := by
  intro rows
  induction rows with
  | nil =>
      intro i acc
      exact ⟨[], by simp [persistIter]⟩
  | cons r rs ih =>
      intro i acc
      by_cases h : raiseAt = some i
      · exact ⟨[], by simp [persistIter, h]⟩
      · obtain ⟨t, ht⟩ := ih (i + 1) (acc ++ [r])
        exact ⟨[r] ++ t, by simp [persistIter, h, ht]⟩

/-- The unit loop only ever appends to the persisted rows: no rollback. -/
theorem unitsLoop_persisted_extends (env : GenEnv) :
    ∀ (units : List (Nat × PageUnit)) (st : GenState),
      ∃ tail, (unitsLoop env units st).1.persisted = st.persisted ++ tail := by
  intro units
  induction units with
  | nil =>
      intro st
      exact ⟨[], by simp [unitsLoop]⟩
  | cons p rest ih =>
      rcases p with ⟨i, u⟩
      intro st
      by_cases hlen : u.contentLen ≤ 150
      · obtain ⟨t, ht⟩ := ih st
        exact ⟨t, by simp [unitsLoop, hlen, ht]⟩
      · rcases hm : u.meaningfulOutcome with _ | b
        · obtain ⟨t, ht⟩ := ih { st with metadataDB := some (metaAt env i) }
          exact ⟨t, by simp [unitsLoop, hlen, hm, ht]⟩
        · cases b
          · obtain ⟨t, ht⟩ := ih { st with metadataDB := some (metaAt env i) }
            exact ⟨t, by simp [unitsLoop, hlen, hm, ht]⟩
          · rcases hg : generate_json_dataset env u st.polls with ⟨c2, res⟩
            rcases res with _ | ⟨rows, success⟩
            · obtain ⟨t, ht⟩ := ih
                { polls := c2, metadataDB := some (metaAt env i),
                  persisted := st.persisted }
              exact ⟨t, by simp [unitsLoop, hlen, hm, hg, ht]⟩
            · cases success
              · exact ⟨[], by simp [unitsLoop, hlen, hm, hg]⟩
              · by_cases hrows : rows.isEmpty = true
                · obtain ⟨t, ht⟩ := ih
                    { polls := c2, metadataDB := some (metaAt env i),
                      persisted := st.persisted }
                  exact ⟨t, by simp [unitsLoop, hlen, hm, hg, hrows, ht]⟩
                · rcases hp : persistIter u.persistRaisesAt
                      (remove_duplicate_dataset [] rows) 0 st.persisted with ⟨pers2, raised⟩
                  obtain ⟨t0, ht0⟩ :=
                    persistIter_extends u.persistRaisesAt
                      (remove_duplicate_dataset [] rows) 0 st.persisted
                  rw [hp] at ht0
                  have ht02 : pers2 = st.persisted ++ t0 := ht0
                  cases raised
                  · obtain ⟨t1, ht1⟩ := ih
                      { polls := c2, metadataDB := some (metaAt env i),
                        persisted := pers2 }
                    rw [ht02] at ht1
                    refine ⟨t0 ++ t1, ?_⟩
                    simp [unitsLoop, hlen, hm, hg, hrows, hp, ht02, ht1,
                      List.append_assoc]
                  · refine ⟨t0, ?_⟩
                    simp [unitsLoop, hlen, hm, hg, hrows, hp, ht02]

/-- Claim C7: abort observed before any unit is processed (at poll 0 or 1)
ends the job with no new rows persisted and metadata null; abort observed
mid-unit (the generation loop returned success = false) breaks out of the
loop with the current unit's rows discarded and the persisted rows exactly
as they were before the unit; and the loop never rolls back previously
persisted rows, so after an abort exactly the units persisted before it
remain. -/
theorem C7_abort_persistence (env : GenEnv) (m0 : Option MetaRec) :
    (∀ k, env.abortAt = some k → k ≤ 1 →
      (create_json_dataset env m0).1.persisted = [] ∧
      (create_json_dataset env m0).1.metadataDB = none ∧
      (create_json_dataset env m0).2 = false) ∧
    (∀ (i : Nat) (u : PageUnit) (rest : List (Nat × PageUnit)) (st : GenState)
        (c2 : Nat) (rows : List QAPair),
      150 < u.contentLen →
      u.meaningfulOutcome = Except.ok true →
      generate_json_dataset env u st.polls = (c2, Except.ok (rows, false)) →
      (unitsLoop env ((i, u) :: rest) st).1.persisted = st.persisted ∧
      (unitsLoop env ((i, u) :: rest) st).2 = LoopExit.broke) ∧
    (∀ (units : List (Nat × PageUnit)) (st : GenState), ∃ tail,
      (unitsLoop env units st).1.persisted = st.persisted ++ tail) := by
  refine ⟨?_, ?_, unitsLoop_persisted_extends env⟩
  · intro k hk hk1
    have hcases : k = 0 ∨ k = 1 := by omega
    rcases hcases with rfl | rfl
    · have h1 : checkAbort env 0 = true := by simp [checkAbort, hk]
      simp [create_json_dataset, h1]
    · have h1 : checkAbort env 0 = false := by simp [checkAbort, hk]
      by_cases h2 : env.modelLoadRaises = true
      · simp [create_json_dataset, h1, h2]
      · have h3 : checkAbort env 1 = true := by simp [checkAbort, hk]
        simp [create_json_dataset, h1, h2, h3]
  · intro i u rest st c2 rows hlen hm hg
    have hlen2 : ¬ u.contentLen ≤ 150 := by omega
    constructor <;> simp [unitsLoop, hlen2, hm, hg]

/-- An aborted-from-the-start generation job. -/
def c7Env : GenEnv :=
  { abortAt := some 0, modelLoadRaises := false, units := [c6OkUnit],
    numGenerations := 1, processedFiles := 1, totalFiles := 1,
    celeryTaskId := "job-2" }

/-- Witness for claim C7: aborting before any unit leaves zero new rows
and null metadata. -/
theorem C7_abort_persistence_witness :
    c7Env.abortAt = some 0 ∧
    ((create_json_dataset c7Env none).1.persisted = [] ∧
      (create_json_dataset c7Env none).1.metadataDB = none ∧
      (create_json_dataset c7Env none).2 = false) :=
  ⟨rfl, (C7_abort_persistence c7Env none).1 0 rfl (by decide)⟩

/-- Claim C8: when the serving container for the model id exists and is
running (in a state where a deployment could previously be created: the
model weights and the serving image are present), a second
`create_deployment` call returns the failure response "Services for model
id: ... already running." after only an image lookup, a container listing
and a container inspection — no `containers.run` call is made and the
runtime state is unchanged, so no second container is created. -/
theorem C8_already_running_fails_fast (env : DeployEnv) (mid : Nat)
    (port : Int) (dev : String)
    (hpath : env.modelPathExists = true)
    (himg : verify_image_existed env.world (IMAGE_NAME ++ ":" ++ env.imageTag) = true)
    (hex : verify_container_existed env.world (CONTAINER_PREFIX ++ toString mid) = true)
    (hrun : verify_container_running env.world (CONTAINER_PREFIX ++ toString mid) = true) :
    create_deployment env (some mid) (some port) (some dev) =
      ({ status := false,
         message := "Services for model id: " ++ toString mid ++ " already running." },
        [DockerOp.imageGet, DockerOp.containerList, DockerOp.containerGet], env) ∧
    DockerOp.containerRun ∉ (create_deployment env (some mid) (some port) (some dev)).2.1 := by
  have heq : create_deployment env (some mid) (some port) (some dev) =
      ({ status := false,
         message := "Services for model id: " ++ toString mid ++ " already running." },
        [DockerOp.imageGet, DockerOp.containerList, DockerOp.containerGet], env) := by
    simp [create_deployment, hpath, himg, hex, hrun]
  refine ⟨heq, ?_⟩
  rw [heq]
  show DockerOp.containerRun ∉
    [DockerOp.imageGet, DockerOp.containerList, DockerOp.containerGet]
  decide

/-- A runtime state in which model 1's serving container is up. -/
def c8Env : DeployEnv :=
  { world := { images := ["edge-ai-tuning-kit.backend.serving:latest"],
               containers := [⟨"edge-ai-tuning-kit.backend.serving-1", true⟩] },
    modelPathExists := true, deployments := [⟨1, 8000⟩], imageTag := "latest" }

/-- Witness for claim C8. -/
theorem C8_already_running_fails_fast_witness :
    (c8Env.modelPathExists = true ∧
      verify_image_existed c8Env.world (IMAGE_NAME ++ ":" ++ c8Env.imageTag) = true ∧
      verify_container_existed c8Env.world (CONTAINER_PREFIX ++ toString 1) = true ∧
      verify_container_running c8Env.world (CONTAINER_PREFIX ++ toString 1) = true) ∧
    (create_deployment c8Env (some 1) (some 8000) (some "cpu") =
      ({ status := false,
         message := "Services for model id: " ++ toString 1 ++ " already running." },
        [DockerOp.imageGet, DockerOp.containerList, DockerOp.containerGet], c8Env) ∧
      DockerOp.containerRun ∉
        (create_deployment c8Env (some 1) (some 8000) (some "cpu")).2.1) :=
  ⟨⟨rfl, by decide, by decide, by decide⟩,
    C8_already_running_fails_fast c8Env 1 8000 "cpu" rfl (by decide) (by decide)
      (by decide)⟩

/-- A state with no serving container but with port 8000 recorded by a
deployment of another model (id 7). -/
def c9Env : DeployEnv :=
  { world := { images := ["edge-ai-tuning-kit.backend.serving:latest"],
               containers := [] },
    modelPathExists := true, deployments := [⟨7, 8000⟩], imageTag := "latest" }

/-- Counterexample to claim C9: a start-deployment call whose port is
already recorded by another deployment is rejected with the port-in-use
message, but by then the service has already performed two
container-runtime calls — the image lookup and the container listing —
so the rejection does not precede every runtime operation. -/
theorem C9_cex_runtime_ops_before_port_rejection :
    create_deployment c9Env (some 1) (some 8000) (some "cpu") =
      ({ status := false,
         message := "Port 8000 is already in use. Please use another port number." },
        [DockerOp.imageGet, DockerOp.containerList], c9Env) ∧
    DockerOp.imageGet ∈ (create_deployment c9Env (some 1) (some 8000) (some "cpu")).2.1 ∧
    DockerOp.containerList ∈
      (create_deployment c9Env (some 1) (some 8000) (some "cpu")).2.1 := by
  refine ⟨by decide, by decide, by decide⟩

/-- Claim C9 as amended: a call whose requested host port is rejected by
`_verify_host_port` (out of range or already recorded by another
deployment) returns the port-rejection message before any container is
run and without mutating the runtime state — but after the image lookup
and the container listing, which the source performs first. -/
theorem C9_port_rejected_before_container_run (env : DeployEnv) (mid : Nat)
    (port : Int) (dev : String) (msg : String)
    (hpath : env.modelPathExists = true)
    (himg : verify_image_existed env.world (IMAGE_NAME ++ ":" ++ env.imageTag) = true)
    (hnoc : verify_container_existed env.world (CONTAINER_PREFIX ++ toString mid) = false)
    (hport : verify_host_port env.deployments port = some msg) :
    create_deployment env (some mid) (some port) (some dev) =
      ({ status := false, message := msg },
        [DockerOp.imageGet, DockerOp.containerList], env) ∧
    DockerOp.containerRun ∉ (create_deployment env (some mid) (some port) (some dev)).2.1 ∧
    (create_deployment env (some mid) (some port) (some dev)).2.2 = env := by
  have heq : create_deployment env (some mid) (some port) (some dev) =
      ({ status := false, message := msg },
        [DockerOp.imageGet, DockerOp.containerList], env) := by
    simp [create_deployment, createAfterContainerCheck, hpath, himg, hnoc, hport]
  refine ⟨heq, ?_, ?_⟩
  · rw [heq]
    show DockerOp.containerRun ∉ [DockerOp.imageGet, DockerOp.containerList]
    decide
  · rw [heq]

/-- Witness for the amended claim C9. -/
theorem C9_port_rejected_before_container_run_witness :
    verify_host_port c9Env.deployments 8000 =
      some "Port 8000 is already in use. Please use another port number." ∧
    (create_deployment c9Env (some 1) (some 8000) (some "cpu") =
      ({ status := false,
         message := "Port 8000 is already in use. Please use another port number." },
        [DockerOp.imageGet, DockerOp.containerList], c9Env) ∧
      DockerOp.containerRun ∉
        (create_deployment c9Env (some 1) (some 8000) (some "cpu")).2.1 ∧
      (create_deployment c9Env (some 1) (some 8000) (some "cpu")).2.2 = c9Env) :=
  ⟨by decide,
    C9_port_rejected_before_container_run c9Env 1 8000 "cpu"
      "Port 8000 is already in use. Please use another port number."
      rfl (by decide) (by decide) (by decide)⟩
